import Mathlib

/-!
# Medical records service: search, aggregation and record mutation

A shallow embedding of `src/main.go` (package `main`).  Handlers become pure
functions.  The store handle `db` is passed explicitly, either as an oracle
(`query`, `exec`) whose calls are logged, or as the concrete table model
`Store`.  A Go run-time panic is an explicit outcome.
-/

namespace PatientRecords

/-! ## Data model (`main.go` lines 28-101) -/

/-- Patient represents the details of a patient (`type Patient struct`). -/
structure Patient where
  ID : String
  Name : String
  Age : Int
  deriving DecidableEq

/-- VisitRecord represents a visit health record. -/
structure VisitRecord where
  Date : String
  Reason : String
  DoctorName : String
  Hospital : String
  deriving DecidableEq

/-- TreatmentRecord represents a treatment health record. -/
structure TreatmentRecord where
  Date : String
  Treatment : String
  Outcome : String
  Hospital : String
  deriving DecidableEq

/-- DiagnosticRecord represents a diagnostic health record. -/
structure DiagnosticRecord where
  Date : String
  Diagnosis : String
  Specialist : String
  Hospital : String
  deriving DecidableEq

/-- Record is a patient together with its visit, treatment and diagnostic
records (`type Record struct`). -/
structure Record where
  Patient : Patient
  VisitRecords : List VisitRecord
  TreatmentRecs : List TreatmentRecord
  DiagRecords : List DiagnosticRecord
  deriving DecidableEq

/-- A value bound to a `?` placeholder of a statement: the handlers only ever
bind Go strings and one Go int (the age). -/
inductive SqlValue where
  | text (s : String)
  | int (n : Int)
  deriving DecidableEq

/-! ## HTTP responses -/

/-- What a handler wrote to the `http.ResponseWriter`. -/
inductive Body where
  | text (msg : String)
  | jsonError (msg : String)
  | jsonRecords (records : List Record)
  | jsonRecord (record : Record)
  deriving DecidableEq

/-- Status code and body of a response. -/
structure Response where
  status : Nat
  body : Body
  deriving DecidableEq

def StatusOK : Nat := 200
def StatusCreated : Nat := 201
def StatusBadRequest : Nat := 400
def StatusNotFound : Nat := 404
def StatusMethodNotAllowed : Nat := 405
def StatusInternalServerError : Nat := 500

/-- Go's `http.Error(w, msg, code)`: the status line and the message followed
by a newline. -/
def httpError (msg : String) (code : Nat) : Response :=
  ⟨code, Body.text (msg ++ "\n")⟩

/-- Go's `http.NotFound(w, r)`. -/
def httpNotFound : Response :=
  httpError "404 page not found" StatusNotFound

/-- Utility function to send error responses (`httpRespondWithError`, lines
501-504): the status and the JSON object with the single key `error`. -/
def httpRespondWithError (statusCode : Nat) (msg : String) : Response :=
  ⟨statusCode, Body.jsonError msg⟩

/-! ## Query construction of `searchHandler` (lines 235-262) -/

/-- The raw string literal assigned to `baseQuery` (lines 235-245), character
for character. -/
def baseQuery : String :=
  "\n" ++
  "        SELECT \n" ++
  "            p.id, p.name, p.age, \n" ++
  "            v.date AS visit_date, v.reason, v.doctor_name, v.hospital AS visit_hospital,\n" ++
  "            t.date AS treatment_date, t.treatment, t.outcome, t.hospital AS treatment_hospital,\n" ++
  "            d.date AS diagnostic_date, d.diagnosis, d.specialist, d.hospital AS diagnostic_hospital\n" ++
  "        FROM Patients p\n" ++
  "        LEFT JOIN Visits v ON p.id = v.patient_id\n" ++
  "        LEFT JOIN Treatments t ON p.id = t.patient_id\n" ++
  "        LEFT JOIN Diagnostics d ON p.id = d.patient_id\n" ++
  "    "

/-- The local `hospitalCondition` of line 254. -/
def hospitalCondition : String :=
  "(v.hospital = ? OR t.hospital = ? OR d.hospital = ?)"

/-- The slice `conditions` after the two `if` blocks of lines 249-257. -/
def searchConditions (patientID hospital : String) : List String :=
  let conditions : List String := []
  let conditions := if patientID ≠ "" then conditions ++ ["p.id = ?"] else conditions
  let conditions :=
    if hospital ≠ "" then
      conditions ++ [hospitalCondition, hospitalCondition, hospitalCondition]
    else conditions
  conditions

/-- The slice `queryParams` after the two `if` blocks of lines 249-257. -/
def searchParams (patientID hospital : String) : List SqlValue :=
  let queryParams : List SqlValue := []
  let queryParams :=
    if patientID ≠ "" then queryParams ++ [SqlValue.text patientID] else queryParams
  let queryParams :=
    if hospital ≠ "" then
      queryParams ++ [SqlValue.text hospital, SqlValue.text hospital, SqlValue.text hospital]
    else queryParams
  queryParams

/-- Go's `strings.Join`. -/
def stringsJoin (elems : List String) (sep : String) : String :=
  sep.intercalate elems

/-- The text after `WHERE` (the argument of line 261), when there is one. -/
def whereClause (patientID hospital : String) : String :=
  stringsJoin (searchConditions patientID hospital) " AND "

/-- The final value of `baseQuery` (lines 259-262). -/
def searchQueryText (patientID hospital : String) : String :=
  let conditions := searchConditions patientID hospital
  if conditions.length > 0 then
    baseQuery ++ (" WHERE " ++ stringsJoin conditions " AND ")
  else baseQuery

/-- Number of `?` placeholders of a statement text. -/
def countPlaceholders (text : String) : Nat :=
  text.toList.count '?'

/-- Number of elements of a list of conditions equal to `c`. -/
def occurrences (c : String) (conditions : List String) : Nat :=
  conditions.count c

/-! ## Result aggregation of `searchHandler` (lines 272-344) -/

/-- The fifteen variables filled by one successful `rows.Scan` (lines
277-290), under the names the source gives them. -/
structure JoinRow where
  id : String
  name : String
  age : Int
  vDate : String
  vReason : String
  vDoctorName : String
  visitHospital : String
  tDate : String
  tTreatment : String
  tOutcome : String
  treatmentHospital : String
  dDate : String
  dDiagnosis : String
  dSpecialist : String
  diagnosticHospital : String
  deriving DecidableEq

/-- Go's `map[string]*Record`, as the list of its entries in order of first
insertion.  Every key occurs once: an entry is only added under a key that is
not there yet. -/
abbrev RecordMap := List (String × Record)

/-- The comma-ok lookup `_, exists := recordMap[id]`. -/
def RecordMap.hasKey (m : RecordMap) (id : String) : Bool :=
  m.any (fun e => decide (e.1 = id))

/-- An assignment through the pointer `recordMap[id]`: the Record stored under
`id` is replaced by `f` of it. -/
def RecordMap.modify (m : RecordMap) (id : String) (f : Record → Record) : RecordMap :=
  m.map (fun e => if e.1 = id then (e.1, f e.2) else e)

/-- The `VisitRecord` literal of lines 312-317. -/
def JoinRow.visit (row : JoinRow) : VisitRecord :=
  { Date := row.vDate, Reason := row.vReason, DoctorName := row.vDoctorName,
    Hospital := row.visitHospital }

/-- The `TreatmentRecord` literal of lines 322-327. -/
def JoinRow.treatment (row : JoinRow) : TreatmentRecord :=
  { Date := row.tDate, Treatment := row.tTreatment, Outcome := row.tOutcome,
    Hospital := row.treatmentHospital }

/-- The `DiagnosticRecord` literal of lines 332-337. -/
def JoinRow.diagnostic (row : JoinRow) : DiagnosticRecord :=
  { Date := row.dDate, Diagnosis := row.dDiagnosis, Specialist := row.dSpecialist,
    Hospital := row.diagnosticHospital }

/-- The `Record` literal of lines 298-307. -/
def JoinRow.newRecord (row : JoinRow) : Record :=
  { Patient := { ID := row.id, Name := row.name, Age := row.age },
    VisitRecords := [], TreatmentRecs := [], DiagRecords := [] }

/-- The body of the row loop after a successful Scan (lines 296-338). -/
def aggregateRow (recordMap : RecordMap) (row : JoinRow) : RecordMap :=
  let recordMap :=
    if ¬ recordMap.hasKey row.id then recordMap ++ [(row.id, row.newRecord)] else recordMap
  let recordMap :=
    if row.vDate ≠ "" then
      recordMap.modify row.id (fun r => { r with VisitRecords := r.VisitRecords ++ [row.visit] })
    else recordMap
  let recordMap :=
    if row.tDate ≠ "" then
      recordMap.modify row.id
        (fun r => { r with TreatmentRecs := r.TreatmentRecs ++ [row.treatment] })
    else recordMap
  let recordMap :=
    if row.dDate ≠ "" then
      recordMap.modify row.id (fun r => { r with DiagRecords := r.DiagRecords ++ [row.diagnostic] })
    else recordMap
  recordMap

/-- The loop `for rows.Next()` of lines 276-339.  The result set is the list
of the outcomes of `rows.Scan` on its rows, in the order the store returns
them: the decoded variables, or the error of Scan.  The first error ends the
loop with that error. -/
def scanLoop : List (Except String JoinRow) → RecordMap → Except String RecordMap
  | [], recordMap => Except.ok recordMap
  | Except.error err :: _, _ => Except.error err
  | Except.ok row :: rest, recordMap => scanLoop rest (aggregateRow recordMap row)

/-- Convert map to slice (lines 341-344).  `iter` is the order in which
`range recordMap` visits the entries, which Go leaves unspecified. -/
def mapToSlice (iter : RecordMap → RecordMap) (recordMap : RecordMap) : List Record :=
  (iter recordMap).foldl (fun records rec => records ++ [rec.2]) []

/-- Lines 272-344 of `searchHandler`: the Records emitted for a result set, or
the Scan error that ended the loop. -/
def aggregateRecords (iter : RecordMap → RecordMap)
    (rows : List (Except String JoinRow)) : Except String (List Record) :=
  match scanLoop rows [] with
  | Except.error err => Except.error err
  | Except.ok recordMap => Except.ok (mapToSlice iter recordMap)

/-- The result of `searchHandler`: the response and the statements passed to
`db.Query`, with their parameter lists. -/
structure SearchResult where
  response : Response
  issued : List (String × List SqlValue)

/-- The handler `searchHandler` (lines 224-354) on the two query-string values.
`query` is `db.Query` on the store of the call. -/
def searchHandler
    (query : String → List SqlValue → Except String (List (Except String JoinRow)))
    (iter : RecordMap → RecordMap) (patientID hospital : String) : SearchResult :=
  if patientID = "" ∧ hospital = "" then
    ⟨httpError "Please provide either a patientId or hospital parameter" StatusBadRequest, []⟩
  else
    let text := searchQueryText patientID hospital
    let queryParams := searchParams patientID hospital
    match query text queryParams with
    | Except.error err =>
      ⟨httpError ("Database query error: " ++ err) StatusInternalServerError,
        [(text, queryParams)]⟩
    | Except.ok rows =>
      match aggregateRecords iter rows with
      | Except.error err =>
        ⟨httpError ("Failed to parse database results: " ++ err) StatusInternalServerError,
          [(text, queryParams)]⟩
      | Except.ok records =>
        if records.length = 0 then ⟨httpNotFound, [(text, queryParams)]⟩
        else ⟨⟨StatusOK, Body.jsonRecords records⟩, [(text, queryParams)]⟩

/-- Stated from the claim, not from the loop: the visit column sets (visit
date, reason, doctor name, visit hospital) of the rows of patient `p` whose
visit date is not empty, in row order. -/
def visitsOf (p : String) (rows : List JoinRow) : List VisitRecord :=
  (rows.filter (fun row => decide (row.id = p ∧ row.vDate ≠ ""))).map
    (fun row => VisitRecord.mk row.vDate row.vReason row.vDoctorName row.visitHospital)

/-- Stated from the claim, not from the loop: the treatment column sets
(treatment date, treatment, outcome, treatment hospital) of the rows of
patient `p` whose treatment date is not empty, in row order. -/
def treatmentsOf (p : String) (rows : List JoinRow) : List TreatmentRecord :=
  (rows.filter (fun row => decide (row.id = p ∧ row.tDate ≠ ""))).map
    (fun row =>
      TreatmentRecord.mk row.tDate row.tTreatment row.tOutcome row.treatmentHospital)

/-- Stated from the claim, not from the loop: the diagnostic column sets
(diagnostic date, diagnosis, specialist, diagnostic hospital) of the rows of
patient `p` whose diagnostic date is not empty, in row order. -/
def diagnosticsOf (p : String) (rows : List JoinRow) : List DiagnosticRecord :=
  (rows.filter (fun row => decide (row.id = p ∧ row.dDate ≠ ""))).map
    (fun row =>
      DiagnosticRecord.mk row.dDate row.dDiagnosis row.dSpecialist row.diagnosticHospital)

/-- The Record `r` stored under patient `p` once the children of `rows` that
belong to `p` and have a non-empty date are appended to its three sequences. -/
def withChildren (p : String) (rows : List JoinRow) (r : Record) : Record :=
  { r with
    VisitRecords := r.VisitRecords ++ visitsOf p rows
    TreatmentRecs := r.TreatmentRecs ++ treatmentsOf p rows
    DiagRecords := r.DiagRecords ++ diagnosticsOf p rows }

/-! ## Single-kind update (lines 357-391, 454-498) -/

/-- A value of Go's `interface{}` as `encoding/json` decodes it into a
`map[string]interface{}`; a number is kept as its literal. -/
inductive JsonValue where
  | null
  | bool (b : Bool)
  | number (literal : String)
  | str (s : String)
  | array (elems : List JsonValue)
  | object (fields : List (String × JsonValue))

/-- Go's `map[string]interface{}`, as the list of its entries. -/
abbrev JsonObject := List (String × JsonValue)

/-- The index expression `data[key]`: `none` is the nil interface of an absent
key. -/
def JsonObject.index (data : JsonObject) (key : String) : Option JsonValue :=
  data.lookup key

/-- The single-value type assertion `x.(string)`: `none` is the run-time
panic of a failed assertion. -/
def assertString : Option JsonValue → Option String
  | some (JsonValue.str s) => some s
  | _ => none

/-- The single-value type assertion `x.(map[string]interface{})`: `none` is
the run-time panic of a failed assertion. -/
def assertObject : Option JsonValue → Option JsonObject
  | some (JsonValue.object fields) => some fields
  | _ => none

/-- How a call ended: it returned its `error` result (`none` is nil), or it
panicked. -/
inductive CallOutcome where
  | returned (err : Option String)
  | panicked
  deriving DecidableEq

/-- The outcome of an update function and the statements it passed to
`tx.Exec`, with their arguments. -/
structure TxResult where
  outcome : CallOutcome
  executed : List (String × List SqlValue)
  deriving DecidableEq

/-- Updates an existing visit record based on provided data
(`updateVisitRecord`, lines 358-367).  `exec` is `tx.Exec`: the error it
returns for a statement and its arguments. -/
def updateVisitRecord (exec : String → List SqlValue → Option String)
    (patientID : String) (data : JsonObject) : TxResult :=
  match assertString (data.index "date") with
  | none => ⟨CallOutcome.panicked, []⟩
  | some date =>
  match assertString (data.index "reason") with
  | none => ⟨CallOutcome.panicked, []⟩
  | some reason =>
  match assertString (data.index "doctorName") with
  | none => ⟨CallOutcome.panicked, []⟩
  | some doctorName =>
  match assertString (data.index "hospital") with
  | none => ⟨CallOutcome.panicked, []⟩
  | some hospital =>
    let stmt := "UPDATE Visits SET date = ?, reason = ?, doctor_name = ?, hospital = ? WHERE patient_id = ? AND date = ?"
    let args := [SqlValue.text date, SqlValue.text reason, SqlValue.text doctorName,
      SqlValue.text hospital, SqlValue.text patientID, SqlValue.text date]
    ⟨CallOutcome.returned (exec stmt args), [(stmt, args)]⟩

/-- Updates an existing treatment record based on provided data
(`updateTreatmentRecord`, lines 370-379). -/
def updateTreatmentRecord (exec : String → List SqlValue → Option String)
    (patientID : String) (data : JsonObject) : TxResult :=
  match assertString (data.index "date") with
  | none => ⟨CallOutcome.panicked, []⟩
  | some date =>
  match assertString (data.index "treatment") with
  | none => ⟨CallOutcome.panicked, []⟩
  | some treatment =>
  match assertString (data.index "outcome") with
  | none => ⟨CallOutcome.panicked, []⟩
  | some outcome =>
  match assertString (data.index "hospital") with
  | none => ⟨CallOutcome.panicked, []⟩
  | some hospital =>
    let stmt := "UPDATE Treatments SET date = ?, treatment = ?, outcome = ?, hospital = ? WHERE patient_id = ? AND date = ?"
    let args := [SqlValue.text date, SqlValue.text treatment, SqlValue.text outcome,
      SqlValue.text hospital, SqlValue.text patientID, SqlValue.text date]
    ⟨CallOutcome.returned (exec stmt args), [(stmt, args)]⟩

/-- Updates an existing diagnostic record based on provided data
(`updateDiagnosticRecord`, lines 382-391). -/
def updateDiagnosticRecord (exec : String → List SqlValue → Option String)
    (patientID : String) (data : JsonObject) : TxResult :=
  match assertString (data.index "date") with
  | none => ⟨CallOutcome.panicked, []⟩
  | some date =>
  match assertString (data.index "diagnosis") with
  | none => ⟨CallOutcome.panicked, []⟩
  | some diagnosis =>
  match assertString (data.index "specialist") with
  | none => ⟨CallOutcome.panicked, []⟩
  | some specialist =>
  match assertString (data.index "hospital") with
  | none => ⟨CallOutcome.panicked, []⟩
  | some hospital =>
    let stmt := "UPDATE Diagnostics SET date = ?, diagnosis = ?, specialist = ?, hospital = ? WHERE patient_id = ? AND date = ?"
    let args := [SqlValue.text date, SqlValue.text diagnosis, SqlValue.text specialist,
      SqlValue.text hospital, SqlValue.text patientID, SqlValue.text date]
    ⟨CallOutcome.returned (exec stmt args), [(stmt, args)]⟩

/-- The dispatch on the kind tag (`updateRecord`, lines 487-498). -/
def updateRecord (exec : String → List SqlValue → Option String)
    (patientID recordType : String) (data : JsonObject) : TxResult :=
  if recordType = "visit" then updateVisitRecord exec patientID data
  else if recordType = "treatment" then updateTreatmentRecord exec patientID data
  else if recordType = "diagnostic" then updateDiagnosticRecord exec patientID data
  else ⟨CallOutcome.returned (some "Invalid record type"), []⟩

/-- How a handler ended: with a response, or with a panic that left the
handler before any response was written. -/
inductive HandlerOutcome where
  | responded (r : Response)
  | panicked
  deriving DecidableEq

/-- The outcome of `addRecordHandler` and the statements it executed. -/
structure AddRecordResult where
  outcome : HandlerOutcome
  executed : List (String × List SqlValue)
  deriving DecidableEq

/-- The handler `addRecordHandler` (lines 454-485).  `decoded` is the outcome
of decoding the request body into `genericMap`; `beginErr` and `commitErr` are
the errors of `db.Begin` and `tx.Commit` (`none` is nil). -/
def addRecordHandler (method : String) (decoded : Except String JsonObject)
    (beginErr : Option String) (exec : String → List SqlValue → Option String)
    (commitErr : Option String) : AddRecordResult :=
  if method ≠ "POST" then
    ⟨HandlerOutcome.responded (httpRespondWithError StatusMethodNotAllowed "Unsupported method"), []⟩
  else
    match decoded with
    | Except.error err =>
      ⟨HandlerOutcome.responded (httpRespondWithError StatusBadRequest err), []⟩
    | Except.ok genericMap =>
      match assertString (genericMap.index "patientId") with
      | none => ⟨HandlerOutcome.panicked, []⟩
      | some patientID =>
      match assertString (genericMap.index "type") with
      | none => ⟨HandlerOutcome.panicked, []⟩
      | some recordType =>
      match assertObject (genericMap.index "record") with
      | none => ⟨HandlerOutcome.panicked, []⟩
      | some recordData =>
        match beginErr with
        | some err =>
          ⟨HandlerOutcome.responded (httpRespondWithError StatusInternalServerError
            ("Failed to start transaction: " ++ err)), []⟩
        | none =>
          match updateRecord exec patientID recordType recordData with
          | ⟨CallOutcome.panicked, executed⟩ => ⟨HandlerOutcome.panicked, executed⟩
          | ⟨CallOutcome.returned (some err), executed⟩ =>
            ⟨HandlerOutcome.responded (httpRespondWithError StatusInternalServerError err),
              executed⟩
          | ⟨CallOutcome.returned none, executed⟩ =>
            match commitErr with
            | some err =>
              ⟨HandlerOutcome.responded (httpRespondWithError StatusInternalServerError
                ("Failed to commit transaction: " ++ err)), executed⟩
            | none =>
              ⟨HandlerOutcome.responded ⟨StatusOK, Body.text "Record updated successfully\n"⟩,
                executed⟩

/-- The fields the update function of a kind asserts to be strings in the
payload; none for a tag that `updateRecord` does not dispatch. -/
def requiredFields (recordType : String) : List String :=
  if recordType = "visit" then ["date", "reason", "doctorName", "hospital"]
  else if recordType = "treatment" then ["date", "treatment", "outcome", "hospital"]
  else if recordType = "diagnostic" then ["date", "diagnosis", "specialist", "hospital"]
  else []

/-- A payload in which every required field of the kind is present and is a
string. -/
def wellFormedPayload (recordType : String) (data : JsonObject) : Bool :=
  (requiredFields recordType).all fun key => (assertString (data.index key)).isSome

/-- The status code of the response of a handler, when it wrote one. -/
def HandlerOutcome.statusCode : HandlerOutcome → Option Nat
  | HandlerOutcome.responded r => some r.status
  | HandlerOutcome.panicked => none

/-! ## The store, record insertion (lines 178-209, 403-450) and the join -/

/-- A row of table Patients. -/
structure PatientRow where
  id : String
  name : String
  age : Int
  deriving DecidableEq

/-- A row of table Visits. -/
structure VisitRow where
  patient_id : String
  date : String
  reason : String
  doctor_name : String
  hospital : String
  deriving DecidableEq

/-- A row of table Treatments. -/
structure TreatmentRow where
  patient_id : String
  date : String
  treatment : String
  outcome : String
  hospital : String
  deriving DecidableEq

/-- A row of table Diagnostics. -/
structure DiagnosticRow where
  patient_id : String
  date : String
  diagnosis : String
  specialist : String
  hospital : String
  deriving DecidableEq

/-- Modelled from the spec: the schema of the four tables, which no source file
declares (the statements only name the tables and their columns).  Patients is
keyed by the unique `id`; each child table refers to a patient and has no
uniqueness constraint.  A table is the list of its rows in insertion order. -/
structure Store where
  Patients : List PatientRow
  Visits : List VisitRow
  Treatments : List TreatmentRow
  Diagnostics : List DiagnosticRow
  deriving DecidableEq

def insertPatientStmt : String :=
  "INSERT INTO Patients (id, name, age) VALUES (?, ?, ?)"

def insertVisitStmt : String :=
  "INSERT INTO Visits (patient_id, date, reason, doctor_name, hospital) VALUES (?, ?, ?, ?, ?)"

def insertTreatmentStmt : String :=
  "INSERT INTO Treatments (patient_id, date, treatment, outcome, hospital) VALUES (?, ?, ?, ?, ?)"

def insertDiagnosticStmt : String :=
  "INSERT INTO Diagnostics (patient_id, date, diagnosis, specialist, hospital) VALUES (?, ?, ?, ?, ?)"

/-- The store's `Exec` on the four INSERT statements of the source: the row is
appended to its table; a second patient with an `id` already there is refused.
Any other statement or argument list is an error of the model. -/
def Store.exec (db : Store) (stmt : String) (args : List SqlValue) : Except String Store :=
  if stmt = insertPatientStmt then
    match args with
    | [SqlValue.text id, SqlValue.text name, SqlValue.int age] =>
      if db.Patients.any (fun p => decide (p.id = id)) then
        Except.error "UNIQUE constraint failed: Patients.id"
      else Except.ok { db with Patients := db.Patients ++ [⟨id, name, age⟩] }
    | _ => Except.error "wrong arguments"
  else if stmt = insertVisitStmt then
    match args with
    | [SqlValue.text pid, SqlValue.text date, SqlValue.text reason, SqlValue.text doctor,
        SqlValue.text hospital] =>
      Except.ok { db with Visits := db.Visits ++ [⟨pid, date, reason, doctor, hospital⟩] }
    | _ => Except.error "wrong arguments"
  else if stmt = insertTreatmentStmt then
    match args with
    | [SqlValue.text pid, SqlValue.text date, SqlValue.text treatment, SqlValue.text outcome,
        SqlValue.text hospital] =>
      Except.ok
        { db with Treatments := db.Treatments ++ [⟨pid, date, treatment, outcome, hospital⟩] }
    | _ => Except.error "wrong arguments"
  else if stmt = insertDiagnosticStmt then
    match args with
    | [SqlValue.text pid, SqlValue.text date, SqlValue.text diagnosis, SqlValue.text specialist,
        SqlValue.text hospital] =>
      Except.ok
        { db with Diagnostics := db.Diagnostics ++ [⟨pid, date, diagnosis, specialist, hospital⟩] }
    | _ => Except.error "wrong arguments"
  else Except.error "statement outside the model"

/-- The loop of `insertVisits` (lines 178-187) on the transaction state `tx`. -/
def insertVisitsLoop (patientID : String) : List VisitRecord → Store → Except String Store
  | [], tx => Except.ok tx
  | visit :: rest, tx =>
    match tx.exec insertVisitStmt
      [SqlValue.text patientID, SqlValue.text visit.Date, SqlValue.text visit.Reason,
        SqlValue.text visit.DoctorName, SqlValue.text visit.Hospital] with
    | Except.error err => Except.error err
    | Except.ok tx => insertVisitsLoop patientID rest tx

def insertVisits (tx : Store) (record : Record) : Except String Store :=
  insertVisitsLoop record.Patient.ID record.VisitRecords tx

/-- The loop of `insertTreatments` (lines 189-198). -/
def insertTreatmentsLoop (patientID : String) :
    List TreatmentRecord → Store → Except String Store
  | [], tx => Except.ok tx
  | treatment :: rest, tx =>
    match tx.exec insertTreatmentStmt
      [SqlValue.text patientID, SqlValue.text treatment.Date, SqlValue.text treatment.Treatment,
        SqlValue.text treatment.Outcome, SqlValue.text treatment.Hospital] with
    | Except.error err => Except.error err
    | Except.ok tx => insertTreatmentsLoop patientID rest tx

def insertTreatments (tx : Store) (record : Record) : Except String Store :=
  insertTreatmentsLoop record.Patient.ID record.TreatmentRecs tx

/-- The loop of `insertDiagnostics` (lines 200-209). -/
def insertDiagnosticsLoop (patientID : String) :
    List DiagnosticRecord → Store → Except String Store
  | [], tx => Except.ok tx
  | diagnostic :: rest, tx =>
    match tx.exec insertDiagnosticStmt
      [SqlValue.text patientID, SqlValue.text diagnostic.Date,
        SqlValue.text diagnostic.Diagnosis, SqlValue.text diagnostic.Specialist,
        SqlValue.text diagnostic.Hospital] with
    | Except.error err => Except.error err
    | Except.ok tx => insertDiagnosticsLoop patientID rest tx

def insertDiagnostics (tx : Store) (record : Record) : Except String Store :=
  insertDiagnosticsLoop record.Patient.ID record.DiagRecords tx

/-- The handler `recordsHandler` (lines 403-450): the response and the store
after the call.  `decoded` is the outcome of decoding the request body into a
Record; `beginErr` and `commitErr` are the errors of `db.Begin` and
`tx.Commit` (`none` is nil).  A rollback, or a commit that fails, leaves the
store as it was. -/
def recordsHandler (method : String) (decoded : Except String Record)
    (beginErr commitErr : Option String) (db : Store) : Response × Store :=
  if method ≠ "POST" then (httpError "Unsupported method" StatusMethodNotAllowed, db)
  else
    match decoded with
    | Except.error err => (httpError err StatusBadRequest, db)
    | Except.ok record =>
      match beginErr with
      | some err => (httpError err StatusInternalServerError, db)
      | none =>
        match db.exec insertPatientStmt
          [SqlValue.text record.Patient.ID, SqlValue.text record.Patient.Name,
            SqlValue.int record.Patient.Age] with
        | Except.error err =>
          (httpError ("Failed to insert new patient: " ++ err) StatusInternalServerError, db)
        | Except.ok tx =>
          match insertVisits tx record with
          | Except.error err =>
            (httpError ("Failed to insert visits: " ++ err) StatusInternalServerError, db)
          | Except.ok tx =>
            match insertTreatments tx record with
            | Except.error err =>
              (httpError ("Failed to insert treatments: " ++ err) StatusInternalServerError, db)
            | Except.ok tx =>
              match insertDiagnostics tx record with
              | Except.error err =>
                (httpError ("Failed to insert diagnostics: " ++ err) StatusInternalServerError,
                  db)
              | Except.ok tx =>
                match commitErr with
                | some err =>
                  (httpError ("Failed to commit transaction: " ++ err)
                    StatusInternalServerError, db)
                | none => (⟨StatusCreated, Body.jsonRecord record⟩, tx)

/-- A row of the join before Scan: the patient and, for each child table, the
matching row or the all-NULL columns of a LEFT JOIN without a match. -/
structure RawRow where
  patient : PatientRow
  visit : Option VisitRow
  treatment : Option TreatmentRow
  diagnostic : Option DiagnosticRow
  deriving DecidableEq

/-- The right side of a LEFT JOIN for one left row: the matching rows, or one
NULL row when there is none. -/
def leftJoinSide {α : Type} (matching : List α) : List (Option α) :=
  if matching.isEmpty then [none] else matching.map some

/-- The FROM clause of `baseQuery` (lines 241-244): Patients LEFT JOIN Visits
LEFT JOIN Treatments LEFT JOIN Diagnostics, each on the patient id. -/
def Store.joinRows (db : Store) : List RawRow :=
  db.Patients.flatMap fun p =>
    (leftJoinSide (db.Visits.filter fun v => decide (p.id = v.patient_id))).flatMap fun v =>
      (leftJoinSide (db.Treatments.filter fun t => decide (p.id = t.patient_id))).flatMap fun t =>
        (leftJoinSide (db.Diagnostics.filter fun d => decide (p.id = d.patient_id))).map fun d =>
          (⟨p, v, t, d⟩ : RawRow)

/-- Scan of one text column into a `*string` destination.  `nullString` is what
`database/sql` does for a NULL column, which the source leaves to that
library: the string stored, or the error returned. -/
def scanString (nullString : Except String String) : Option String → Except String String
  | none => nullString
  | some s => Except.ok s

/-- The call `rows.Scan` of lines 285-290 on a row of the join: the fifteen
columns in the order of the SELECT list. -/
def scanRow (nullString : Except String String) (raw : RawRow) : Except String JoinRow := do
  let vDate ← scanString nullString (raw.visit.map fun v => v.date)
  let vReason ← scanString nullString (raw.visit.map fun v => v.reason)
  let vDoctorName ← scanString nullString (raw.visit.map fun v => v.doctor_name)
  let visitHospital ← scanString nullString (raw.visit.map fun v => v.hospital)
  let tDate ← scanString nullString (raw.treatment.map fun t => t.date)
  let tTreatment ← scanString nullString (raw.treatment.map fun t => t.treatment)
  let tOutcome ← scanString nullString (raw.treatment.map fun t => t.outcome)
  let treatmentHospital ← scanString nullString (raw.treatment.map fun t => t.hospital)
  let dDate ← scanString nullString (raw.diagnostic.map fun d => d.date)
  let dDiagnosis ← scanString nullString (raw.diagnostic.map fun d => d.diagnosis)
  let dSpecialist ← scanString nullString (raw.diagnostic.map fun d => d.specialist)
  let diagnosticHospital ← scanString nullString (raw.diagnostic.map fun d => d.hospital)
  pure
    { id := raw.patient.id, name := raw.patient.name, age := raw.patient.age,
      vDate := vDate, vReason := vReason, vDoctorName := vDoctorName,
      visitHospital := visitHospital,
      tDate := tDate, tTreatment := tTreatment, tOutcome := tOutcome,
      treatmentHospital := treatmentHospital,
      dDate := dDate, dDiagnosis := dDiagnosis, dSpecialist := dSpecialist,
      diagnosticHospital := diagnosticHospital }

/-- The store's `Query` on the statement `searchHandler` builds for a patient
id alone: the rows of the join with `p.id` equal to the bound value, each as
the outcome of its Scan.  Any other statement or argument list is an error of
the model. -/
def Store.query (nullString : Except String String) (db : Store) (stmt : String)
    (args : List SqlValue) : Except String (List (Except String JoinRow)) :=
  if stmt = baseQuery ++ " WHERE p.id = ?" then
    match args with
    | [SqlValue.text patientID] =>
      Except.ok
        ((db.joinRows.filter fun raw => decide (raw.patient.id = patientID)).map
          (scanRow nullString))
    | _ => Except.error "wrong arguments"
  else Except.error "statement outside the model"

/-- The empty store. -/
def Store.empty : Store := ⟨[], [], [], []⟩

end PatientRecords

/-! ## Concrete inputs -/

namespace PatientRecords

/-- A Record with one visit, two treatments and one diagnostic. -/
def annRecord : Record :=
  { Patient := ⟨"p1", "Ann", 30⟩,
    VisitRecords := [⟨"2024-01-01", "checkup", "Dr. X", "General"⟩],
    TreatmentRecs :=
      [⟨"2024-01-02", "rest", "good", "General"⟩, ⟨"2024-01-03", "diet", "good", "General"⟩],
    DiagRecords := [⟨"2024-01-04", "flu", "Dr. Y", "General"⟩] }

/-- The store after `annRecord` was posted to the empty store. -/
def annStore : Store :=
  (recordsHandler "POST" (Except.ok annRecord) none none Store.empty).2

/-- A store handle whose `Exec` accepts every statement. -/
def acceptAll : String → List SqlValue → Option String :=
  fun _ _ => none

/-- A well-formed visit payload. -/
def visitPayload : JsonObject :=
  [("date", JsonValue.str "2024-01-01"), ("reason", JsonValue.str "checkup"),
    ("doctorName", JsonValue.str "Dr. X"), ("hospital", JsonValue.str "General")]

/-- A visit payload whose `date` is a number. -/
def mistypedVisitPayload : JsonObject :=
  [("date", JsonValue.number "20240101"), ("reason", JsonValue.str "checkup"),
    ("doctorName", JsonValue.str "Dr. X"), ("hospital", JsonValue.str "General")]

/-- The decoded body of an addRecord request. -/
def addRecordBody (patientID recordType : String) (data : JsonObject) : JsonObject :=
  [("patientId", JsonValue.str patientID), ("type", JsonValue.str recordType),
    ("record", JsonValue.object data)]

/-- A decoded join row of patient `id` with the given three dates. -/
def sampleRow (id vDate tDate dDate : String) : JoinRow :=
  { id := id, name := "Ann", age := 30,
    vDate := vDate, vReason := "checkup", vDoctorName := "Dr. X", visitHospital := "General",
    tDate := tDate, tTreatment := "rest", tOutcome := "good", treatmentHospital := "General",
    dDate := dDate, dDiagnosis := "flu", dSpecialist := "Dr. Y", diagnosticHospital := "General" }

/-- A result set of three rows whose second row fails to decode. -/
def brokenRows : List (Except String JoinRow) :=
  [Except.ok (sampleRow "p1" "2024-01-01" "" ""), Except.error "converting NULL to int",
    Except.ok (sampleRow "p2" "2024-01-05" "" "")]

/-- Three decoded rows of two patients. -/
def sampleRows : List JoinRow :=
  [sampleRow "p1" "2024-01-01" "" "2024-01-04", sampleRow "p2" "" "2024-02-02" "",
    sampleRow "p1" "2024-01-09" "" ""]

end PatientRecords

/-! ## Theorems: query construction -/

namespace PatientRecords

/-- The conditions depend only on which filters are empty. -/
theorem searchConditions_eq (patientID hospital : String) :
    searchConditions patientID hospital
      = (if patientID = "" then [] else ["p.id = ?"])
        ++ (if hospital = "" then []
            else [hospitalCondition, hospitalCondition, hospitalCondition]) := by
  by_cases hp : patientID = "" <;> by_cases hh : hospital = "" <;>
    simp [searchConditions, hp, hh]

/-- C2 (evaluation at the failing input): for the filters patientId `p1` and
hospital `General` the list of conditions holds the hospital group three
times, not once, and the text after WHERE is `p.id = ?` followed by three
copies of the hospital group, all joined by AND.  For every filter pair the
group occurs three times when the hospital is not empty. -/
theorem C2_hospital_group_three_times (patientID hospital : String) :
    searchConditions "p1" "General"
        = ["p.id = ?", hospitalCondition, hospitalCondition, hospitalCondition]
      ∧ whereClause "p1" "General"
        = "p.id = ? AND (v.hospital = ? OR t.hospital = ? OR d.hospital = ?)"
          ++ " AND (v.hospital = ? OR t.hospital = ? OR d.hospital = ?)"
          ++ " AND (v.hospital = ? OR t.hospital = ? OR d.hospital = ?)"
      ∧ whereClause "" "General"
        = "(v.hospital = ? OR t.hospital = ? OR d.hospital = ?)"
          ++ " AND (v.hospital = ? OR t.hospital = ? OR d.hospital = ?)"
          ++ " AND (v.hospital = ? OR t.hospital = ? OR d.hospital = ?)"
      ∧ occurrences hospitalCondition (searchConditions patientID hospital)
        = if hospital = "" then 0 else 3 := by
  refine ⟨?_, ?_, ?_, ?_⟩
  · decide
  · set_option maxRecDepth 100000 in decide
  · set_option maxRecDepth 100000 in decide
  · rw [searchConditions_eq]
    by_cases hp : patientID = "" <;> by_cases hh : hospital = "" <;>
      simp only [hp, hh, if_true, if_false, occurrences] <;>
      set_option maxRecDepth 100000 in decide

/-- C3: `searchHandler` answers with status 400 exactly when both filters are
empty, and in that case it has passed no statement to the store and its body
is the message asking for a filter. -/
theorem C3_bad_request_iff_no_filter
    (query : String → List SqlValue → Except String (List (Except String JoinRow)))
    (iter : RecordMap → RecordMap) (patientID hospital : String) :
    ((searchHandler query iter patientID hospital).response.status = StatusBadRequest
        ↔ (patientID = "" ∧ hospital = ""))
      ∧ ((patientID = "" ∧ hospital = "") →
          (searchHandler query iter patientID hospital).issued = []
          ∧ (searchHandler query iter patientID hospital).response
            = httpError "Please provide either a patientId or hospital parameter"
                StatusBadRequest) := by
  unfold searchHandler
  by_cases h : patientID = "" ∧ hospital = ""
  · simp [h, httpError]
  · simp only [h, if_false, iff_false, false_implies, and_true]
    split
    · simp [httpError, StatusBadRequest, StatusInternalServerError]
    · split
      · simp [httpError, StatusBadRequest, StatusInternalServerError]
      · split <;> simp [httpNotFound, httpError, StatusBadRequest, StatusNotFound, StatusOK]

/-- C9: two filter pairs that agree on which filter is empty give the same
statement text, and every bound parameter is one of the two filter values. -/
theorem C9_text_independent_of_filter_values
    (patientId1 hospital1 patientId2 hospital2 : String)
    (hp : patientId1 = "" ↔ patientId2 = "") (hh : hospital1 = "" ↔ hospital2 = "") :
    searchQueryText patientId1 hospital1 = searchQueryText patientId2 hospital2
      ∧ ∀ x ∈ searchParams patientId1 hospital1,
          x = SqlValue.text patientId1 ∨ x = SqlValue.text hospital1 := by
  by_cases h1 : patientId1 = "" <;> by_cases h2 : hospital1 = ""
  all_goals
    have h1' := h1
    have h2' := h2
    rw [hp] at h1'
    rw [hh] at h2'
    simp [searchQueryText, searchConditions, searchParams, h1, h2, h1', h2']

/-- C9 at two concrete filter pairs. -/
theorem C9_text_independent_of_filter_values_witness :
    searchQueryText "p1" "" = searchQueryText "p1 OR 1=1" ""
      ∧ ∀ x ∈ searchParams "p1" "",
          x = SqlValue.text "p1" ∨ x = SqlValue.text "" :=
  C9_text_independent_of_filter_values "p1" "" "p1 OR 1=1" "" (by decide) (by decide)

/-- C10 (evaluation at the failing input): for the filters patientId empty and
hospital `General` the statement text has nine placeholders and the parameter
list three values; with patientId `p1` as well, ten placeholders and four
values.  For every filter pair the text has six placeholders more than there
are parameters when the hospital is not empty, and as many when it is. -/
theorem C10_placeholders_exceed_parameters (patientID hospital : String) :
    countPlaceholders (searchQueryText "" "General") = 9
      ∧ (searchParams "" "General").length = 3
      ∧ countPlaceholders (searchQueryText "p1" "General") = 10
      ∧ (searchParams "p1" "General").length = 4
      ∧ countPlaceholders (searchQueryText patientID hospital)
        = (searchParams patientID hospital).length + (if hospital = "" then 0 else 6) := by
  refine ⟨?_, ?_, ?_, ?_, ?_⟩
  · set_option maxRecDepth 100000 in decide
  · decide
  · set_option maxRecDepth 100000 in decide
  · decide
  · unfold searchQueryText
    rw [searchConditions_eq]
    by_cases hp : patientID = "" <;> by_cases hh : hospital = "" <;>
      simp only [hp, hh, if_true, if_false, searchParams, ne_eq, not_true_eq_false,
        not_false_eq_true, List.nil_append, List.length_append, List.length_cons,
        List.length_nil] <;>
      set_option maxRecDepth 100000 in decide

end PatientRecords

/-! ## Theorems: single-kind update -/

namespace PatientRecords

theorem updateVisitRecord_wellFormed (exec : String → List SqlValue → Option String)
    (patientID : String) (data : JsonObject) (hwf : wellFormedPayload "visit" data = true)
    (hexec : ∀ stmt args, exec stmt args = none) :
    (updateVisitRecord exec patientID data).outcome = CallOutcome.returned none
      ∧ (updateVisitRecord exec patientID data).executed.length = 1 := by
  simp only [wellFormedPayload, requiredFields, if_true, List.all_cons, List.all_nil,
    Bool.and_true, Bool.and_eq_true, Option.isSome_iff_exists] at hwf
  obtain ⟨⟨a, ha⟩, ⟨b, hb⟩, ⟨c, hc⟩, ⟨d, hd⟩⟩ := hwf
  simp [updateVisitRecord, ha, hb, hc, hd, hexec]

theorem updateTreatmentRecord_wellFormed (exec : String → List SqlValue → Option String)
    (patientID : String) (data : JsonObject) (hwf : wellFormedPayload "treatment" data = true)
    (hexec : ∀ stmt args, exec stmt args = none) :
    (updateTreatmentRecord exec patientID data).outcome = CallOutcome.returned none
      ∧ (updateTreatmentRecord exec patientID data).executed.length = 1 := by
  have h1 : ("treatment" : String) ≠ "visit" := by decide
  simp only [wellFormedPayload, requiredFields, h1, if_false, if_true, List.all_cons,
    List.all_nil, Bool.and_true, Bool.and_eq_true, Option.isSome_iff_exists] at hwf
  obtain ⟨⟨a, ha⟩, ⟨b, hb⟩, ⟨c, hc⟩, ⟨d, hd⟩⟩ := hwf
  simp [updateTreatmentRecord, ha, hb, hc, hd, hexec]

theorem updateDiagnosticRecord_wellFormed (exec : String → List SqlValue → Option String)
    (patientID : String) (data : JsonObject) (hwf : wellFormedPayload "diagnostic" data = true)
    (hexec : ∀ stmt args, exec stmt args = none) :
    (updateDiagnosticRecord exec patientID data).outcome = CallOutcome.returned none
      ∧ (updateDiagnosticRecord exec patientID data).executed.length = 1 := by
  have h1 : ("diagnostic" : String) ≠ "visit" := by decide
  have h2 : ("diagnostic" : String) ≠ "treatment" := by decide
  simp only [wellFormedPayload, requiredFields, h1, h2, if_false, if_true, List.all_cons,
    List.all_nil, Bool.and_true, Bool.and_eq_true, Option.isSome_iff_exists] at hwf
  obtain ⟨⟨a, ha⟩, ⟨b, hb⟩, ⟨c, hc⟩, ⟨d, hd⟩⟩ := hwf
  simp [updateDiagnosticRecord, ha, hb, hc, hd, hexec]

/-- An update function that returned an error has executed its statement. -/
theorem updateVisitRecord_executed (exec : String → List SqlValue → Option String)
    (patientID : String) (data : JsonObject) :
    ¬ ((updateVisitRecord exec patientID data).outcome
          = CallOutcome.returned (some "Invalid record type")
        ∧ (updateVisitRecord exec patientID data).executed = []) := by
  unfold updateVisitRecord
  repeat' split
  all_goals simp

theorem updateTreatmentRecord_executed (exec : String → List SqlValue → Option String)
    (patientID : String) (data : JsonObject) :
    ¬ ((updateTreatmentRecord exec patientID data).outcome
          = CallOutcome.returned (some "Invalid record type")
        ∧ (updateTreatmentRecord exec patientID data).executed = []) := by
  unfold updateTreatmentRecord
  repeat' split
  all_goals simp

theorem updateDiagnosticRecord_executed (exec : String → List SqlValue → Option String)
    (patientID : String) (data : JsonObject) :
    ¬ ((updateDiagnosticRecord exec patientID data).outcome
          = CallOutcome.returned (some "Invalid record type")
        ∧ (updateDiagnosticRecord exec patientID data).executed = []) := by
  unfold updateDiagnosticRecord
  repeat' split
  all_goals simp

/-- C7 (evaluation at the failing input): for the unrecognized kind tag
`surgery`, `updateRecord` returns the error "Invalid record type" having
executed no statement, and `addRecordHandler` answers it with status 500, not
400.  For every store, patient id, kind tag and payload, `updateRecord`
returns that error with no statement executed exactly when the tag is none of
`visit`, `treatment`, `diagnostic`, and for such a tag `addRecordHandler`
answers with status 500; for a recognized tag, a well-formed payload and a
store that accepts the statement, `updateRecord` returns nil after exactly one
statement. -/
theorem C7_invalid_kind_answered_500 (exec : String → List SqlValue → Option String)
    (patientID recordType : String) (data : JsonObject) (commitErr : Option String) :
    updateRecord acceptAll "p1" "surgery" visitPayload
        = ⟨CallOutcome.returned (some "Invalid record type"), []⟩
      ∧ addRecordHandler "POST" (Except.ok (addRecordBody "p1" "surgery" visitPayload)) none
          acceptAll none
        = ⟨HandlerOutcome.responded ⟨500, Body.jsonError "Invalid record type"⟩, []⟩
      ∧ (addRecordHandler "POST" (Except.ok (addRecordBody "p1" "surgery" visitPayload)) none
          acceptAll none).outcome.statusCode ≠ some StatusBadRequest
      ∧ updateRecord acceptAll "p1" "visit" visitPayload
        = ⟨CallOutcome.returned none,
            [("UPDATE Visits SET date = ?, reason = ?, doctor_name = ?, hospital = ? "
                ++ "WHERE patient_id = ? AND date = ?",
              [SqlValue.text "2024-01-01", SqlValue.text "checkup", SqlValue.text "Dr. X",
                SqlValue.text "General", SqlValue.text "p1", SqlValue.text "2024-01-01"])]⟩
      ∧ (((updateRecord exec patientID recordType data).outcome
            = CallOutcome.returned (some "Invalid record type")
          ∧ (updateRecord exec patientID recordType data).executed = [])
          ↔ recordType ∉ ["visit", "treatment", "diagnostic"])
      ∧ (recordType ∉ ["visit", "treatment", "diagnostic"] →
          addRecordHandler "POST" (Except.ok (addRecordBody patientID recordType data))
              none exec commitErr
            = ⟨HandlerOutcome.responded
                (httpRespondWithError StatusInternalServerError "Invalid record type"), []⟩)
      ∧ (recordType ∈ ["visit", "treatment", "diagnostic"] →
          wellFormedPayload recordType data = true → (∀ stmt args, exec stmt args = none) →
          (updateRecord exec patientID recordType data).outcome = CallOutcome.returned none
          ∧ (updateRecord exec patientID recordType data).executed.length = 1) := by
  refine ⟨by decide, by decide, by decide, ?_, ?_, ?_, ?_⟩
  · set_option maxRecDepth 100000 in decide
  · by_cases hv : recordType = "visit"
    · subst hv
      have h := updateVisitRecord_executed exec patientID data
      simp [updateRecord, h]
    · by_cases ht : recordType = "treatment"
      · subst ht
        have h := updateTreatmentRecord_executed exec patientID data
        simp [updateRecord, h]
      · by_cases hd : recordType = "diagnostic"
        · subst hd
          have h := updateDiagnosticRecord_executed exec patientID data
          simp [updateRecord, h]
        · simp [updateRecord, hv, ht, hd]
  · intro hnot
    simp only [List.mem_cons, List.mem_singleton, List.mem_nil_iff, or_false, not_or] at hnot
    obtain ⟨hv, ht, hd⟩ := hnot
    simp [updateRecord, addRecordHandler, addRecordBody, JsonObject.index, List.lookup,
      assertString, assertObject, hv, ht, hd]
  · intro hmem hwf hexec
    simp only [List.mem_cons, List.mem_singleton, List.mem_nil_iff, or_false] at hmem
    rcases hmem with hv | ht | hd
    · subst hv
      simpa [updateRecord] using updateVisitRecord_wellFormed exec patientID data hwf hexec
    · subst ht
      simpa [updateRecord] using updateTreatmentRecord_wellFormed exec patientID data hwf hexec
    · subst hd
      simpa [updateRecord] using updateDiagnosticRecord_wellFormed exec patientID data hwf hexec

/-- C8 (evaluation at the failing inputs): for the kind tag `visit` and a
payload without the required fields, or with a `date` that is a number,
`updateRecord` panics instead of returning an error, and so does every update
function on the empty payload; `addRecordHandler` panics, writing no response,
on a body without `patientId`, and on a body whose record misses the fields.
No statement is executed in any of these calls. -/
theorem C8_missing_field_panics (exec : String → List SqlValue → Option String) :
    updateRecord exec "p1" "visit" [] = ⟨CallOutcome.panicked, []⟩
      ∧ updateRecord exec "p1" "visit" mistypedVisitPayload = ⟨CallOutcome.panicked, []⟩
      ∧ updateRecord exec "p1" "treatment" [] = ⟨CallOutcome.panicked, []⟩
      ∧ updateRecord exec "p1" "diagnostic" [] = ⟨CallOutcome.panicked, []⟩
      ∧ addRecordHandler "POST" (Except.ok []) none exec none = ⟨HandlerOutcome.panicked, []⟩
      ∧ addRecordHandler "POST" (Except.ok (addRecordBody "p1" "visit" [])) none exec none
          = ⟨HandlerOutcome.panicked, []⟩ := by
  refine ⟨?_, ?_, ?_, ?_, ?_, ?_⟩ <;> rfl

end PatientRecords

/-! ## Theorems: aggregation -/

namespace PatientRecords

theorem scanLoop_error_of_mem (rows : List (Except String JoinRow))
    (hbad : ∃ err, Except.error err ∈ rows) (recordMap : RecordMap) :
    ∃ err, Except.error err ∈ rows ∧ scanLoop rows recordMap = Except.error err := by
  induction rows generalizing recordMap with
  | nil => simp at hbad
  | cons r rest ih =>
    cases r with
    | error e => exact ⟨e, by simp, rfl⟩
    | ok row =>
      obtain ⟨err, herr⟩ := hbad
      have hrest : ∃ err, Except.error err ∈ rest := by
        refine ⟨err, ?_⟩
        simpa using herr
      obtain ⟨e, he, hloop⟩ := ih hrest (aggregateRow recordMap row)
      exact ⟨e, by simp [he], by simpa [scanLoop] using hloop⟩

/-- C6: when the store returns a result set in which some row fails to
decode, `searchHandler` answers with status 500 and the message "Failed to
parse database results: " followed by the error of one of the failing rows; the
body holds no Record. -/
theorem C6_decode_failure_aborts
    (query : String → List SqlValue → Except String (List (Except String JoinRow)))
    (iter : RecordMap → RecordMap) (patientID hospital : String)
    (rows : List (Except String JoinRow))
    (hfilter : ¬ (patientID = "" ∧ hospital = ""))
    (hquery : query (searchQueryText patientID hospital) (searchParams patientID hospital)
      = Except.ok rows)
    (hbad : ∃ err, Except.error err ∈ rows) :
    ∃ err, Except.error err ∈ rows
      ∧ aggregateRecords iter rows = Except.error err
      ∧ (searchHandler query iter patientID hospital).response
          = ⟨StatusInternalServerError,
              Body.text ("Failed to parse database results: " ++ err ++ "\n")⟩ := by
  obtain ⟨err, hmem, hloop⟩ := scanLoop_error_of_mem rows hbad []
  refine ⟨err, hmem, ?_, ?_⟩
  · simp [aggregateRecords, hloop]
  · simp [searchHandler, hfilter, hquery, aggregateRecords, hloop, httpError]

/-- C6 at a result set of three rows whose second row fails to decode. -/
theorem C6_decode_failure_aborts_witness :
    ∃ err, Except.error err ∈ brokenRows
      ∧ aggregateRecords List.reverse brokenRows = Except.error err
      ∧ (searchHandler (fun _ _ => Except.ok brokenRows) List.reverse "p1" "").response
          = ⟨StatusInternalServerError,
              Body.text ("Failed to parse database results: " ++ err ++ "\n")⟩ :=
  C6_decode_failure_aborts (fun _ _ => Except.ok brokenRows) List.reverse "p1" "" brokenRows
    (by decide) rfl ⟨"converting NULL to int", by simp [brokenRows]⟩

/-! ### Insert, then search by id -/

/-- C1 (evaluation at the failing input): posting `annRecord` (one visit, two
treatments, one diagnostic, fresh id `p1`) to the empty store succeeds with
status 201, and the search by `patientId=p1` answers with one Record whose
visit sequence has two entries (the one visit twice) and whose diagnostic
sequence has two entries (the one diagnostic twice): the join has one row per
combination of a visit, a treatment and a diagnostic. -/
theorem C1_round_trip_duplicates_children (nullString : Except String String) :
    (recordsHandler "POST" (Except.ok annRecord) none none Store.empty).1.status = StatusCreated
      ∧ (searchHandler (Store.query nullString annStore) id "p1" "").response
        = ⟨StatusOK, Body.jsonRecords
            [{ Patient := ⟨"p1", "Ann", 30⟩,
               VisitRecords :=
                [⟨"2024-01-01", "checkup", "Dr. X", "General"⟩,
                  ⟨"2024-01-01", "checkup", "Dr. X", "General"⟩],
               TreatmentRecs :=
                [⟨"2024-01-02", "rest", "good", "General"⟩,
                  ⟨"2024-01-03", "diet", "good", "General"⟩],
               DiagRecords :=
                [⟨"2024-01-04", "flu", "Dr. Y", "General"⟩,
                  ⟨"2024-01-04", "flu", "Dr. Y", "General"⟩] }]⟩ := by
  constructor
  · set_option maxRecDepth 100000 in decide
  · set_option maxRecDepth 100000 in rfl

/-! ### The row loop as a fold -/

theorem hasKey_iff (m : RecordMap) (id : String) :
    m.hasKey id = true ↔ id ∈ m.map Prod.fst := by
  simp [RecordMap.hasKey]

theorem modify_keys (m : RecordMap) (id : String) (f : Record → Record) :
    (m.modify id f).map Prod.fst = m.map Prod.fst := by
  simp only [RecordMap.modify, List.map_map]
  apply List.map_congr_left
  intro e _
  by_cases h : e.1 = id <;> simp [h]

theorem modify_if (c : Prop) [Decidable c] (m : RecordMap) (id : String)
    (f : Record → Record) :
    (if c then m.modify id f else m)
      = m.map (fun e => if c ∧ e.1 = id then (e.1, f e.2) else e) := by
  by_cases hc : c
  · simp [hc, RecordMap.modify]
  · simp [hc]

theorem aggregateRow_eq (m : RecordMap) (row : JoinRow) :
    aggregateRow m row
      = (if row.id ∈ m.map Prod.fst then m else m ++ [(row.id, row.newRecord)]).map
          (fun e => (e.1, withChildren e.1 [row] e.2)) := by
  have hk : (¬ m.hasKey row.id = true) ↔ ¬ row.id ∈ m.map Prod.fst := by
    rw [hasKey_iff]
  unfold aggregateRow
  simp only [hk]
  generalize hm1 : (if ¬ row.id ∈ m.map Prod.fst then m ++ [(row.id, row.newRecord)] else m) = m1
  have hm1' : (if row.id ∈ m.map Prod.fst then m else m ++ [(row.id, row.newRecord)]) = m1 := by
    rw [← hm1]; by_cases h : row.id ∈ m.map Prod.fst <;> simp [h]
  rw [hm1']
  simp only [modify_if, List.map_map]
  apply List.map_congr_left
  rintro ⟨k, r⟩ _
  have hcomm : (row.id = k) = (k = row.id) := propext eq_comm
  by_cases he : k = row.id <;> by_cases hv : row.vDate = "" <;>
    by_cases ht : row.tDate = "" <;> by_cases hd : row.dDate = "" <;>
    simp [hcomm, he, hv, ht, hd, withChildren, visitsOf, treatmentsOf, diagnosticsOf,
      JoinRow.visit, JoinRow.treatment, JoinRow.diagnostic]

theorem aggregateRow_keys (m : RecordMap) (row : JoinRow) :
    (aggregateRow m row).map Prod.fst
      = if row.id ∈ m.map Prod.fst then m.map Prod.fst else m.map Prod.fst ++ [row.id] := by
  rw [aggregateRow_eq]
  by_cases h : row.id ∈ m.map Prod.fst
  · simp only [h, if_true, List.map_map]
    apply List.map_congr_left
    intro e _
    rfl
  · simp only [h, if_false, List.map_map, List.map_append, List.map_cons, List.map_nil]
    congr 1

theorem foldl_keys_nodup (rows : List JoinRow) (m : RecordMap)
    (h : (m.map Prod.fst).Nodup) : ((rows.foldl aggregateRow m).map Prod.fst).Nodup := by
  induction rows generalizing m with
  | nil => simpa using h
  | cons row rows ih =>
    rw [List.foldl_cons]
    apply ih
    rw [aggregateRow_keys]
    by_cases hmem : row.id ∈ m.map Prod.fst
    · simpa [hmem] using h
    · simp only [hmem, if_false]
      rw [List.nodup_append]
      refine ⟨h, List.nodup_singleton _, ?_⟩
      intro a ha hb
      rw [List.mem_singleton] at hb
      exact hmem (hb ▸ ha)

theorem foldl_keys_mem (rows : List JoinRow) (m : RecordMap) (k : String) :
    k ∈ (rows.foldl aggregateRow m).map Prod.fst
      ↔ k ∈ m.map Prod.fst ∨ k ∈ rows.map (fun row => row.id) := by
  induction rows generalizing m with
  | nil => simp
  | cons row rows ih =>
    rw [List.foldl_cons, ih, aggregateRow_keys]
    by_cases hmem : row.id ∈ m.map Prod.fst
    · simp only [hmem, if_true, List.map_cons, List.mem_cons]
      constructor
      · rintro (h | h)
        · exact Or.inl h
        · exact Or.inr (Or.inr h)
      · rintro (h | h | h)
        · exact Or.inl h
        · exact Or.inl (h ▸ hmem)
        · exact Or.inr h
    · simp only [hmem, if_false, List.map_cons, List.mem_cons, List.mem_append,
        List.mem_singleton]
      tauto

theorem withChildren_nil (k : String) (r : Record) : withChildren k [] r = r := by
  simp [withChildren, visitsOf, treatmentsOf, diagnosticsOf]

theorem withChildren_cons (k : String) (row : JoinRow) (rows : List JoinRow) (r : Record) :
    withChildren k (row :: rows) r = withChildren k rows (withChildren k [row] r) := by
  by_cases hk : row.id = k <;> by_cases hv : row.vDate = "" <;>
    by_cases ht : row.tDate = "" <;> by_cases hd : row.dDate = "" <;>
    simp [withChildren, visitsOf, treatmentsOf, diagnosticsOf, List.filter_cons, hk, hv, ht, hd]

theorem withChildren_of_ne (k : String) (row : JoinRow) (r : Record) (h : row.id ≠ k) :
    withChildren k [row] r = r := by
  simp [withChildren, visitsOf, treatmentsOf, diagnosticsOf, List.filter_cons, h]

theorem foldl_mem (rows : List JoinRow) (m : RecordMap) (k : String) (r : Record)
    (h : (k, r) ∈ rows.foldl aggregateRow m) :
    (∃ r0, (k, r0) ∈ m ∧ r = withChildren k rows r0)
      ∨ (k ∉ m.map Prod.fst
          ∧ ∃ r0 : Record, r0.Patient.ID = k ∧ r0.VisitRecords = [] ∧ r0.TreatmentRecs = []
              ∧ r0.DiagRecords = [] ∧ r = withChildren k rows r0) := by
  induction rows generalizing m with
  | nil => exact Or.inl ⟨r, by simpa using h, (withChildren_nil k r).symm⟩
  | cons row rows ih =>
    rw [List.foldl_cons] at h
    rcases ih (aggregateRow m row) h with ⟨r1, hr1, hr⟩ | ⟨hk, r0, hid, hv, ht, hd, hr⟩
    · rw [aggregateRow_eq, List.mem_map] at hr1
      obtain ⟨⟨k0, r0⟩, he, heq⟩ := hr1
      simp only [Prod.mk.injEq] at heq
      obtain ⟨hk0, hr10⟩ := heq
      subst hk0
      have hr' : r = withChildren k0 (row :: rows) r0 := by
        rw [withChildren_cons, hr10, hr]
      by_cases hmem : row.id ∈ m.map Prod.fst
      · simp only [hmem, if_true] at he
        exact Or.inl ⟨r0, he, hr'⟩
      · simp only [hmem, if_false, List.mem_append, List.mem_singleton, Prod.mk.injEq] at he
        rcases he with he | ⟨hk0, hr0⟩
        · exact Or.inl ⟨r0, he, hr'⟩
        · subst hk0
          refine Or.inr ⟨hmem, r0, ?_, ?_, ?_, ?_, hr'⟩ <;> simp [hr0, JoinRow.newRecord]
    · have hk' : k ∉ m.map Prod.fst ∧ row.id ≠ k := by
        rw [aggregateRow_keys] at hk
        by_cases hmem : row.id ∈ m.map Prod.fst
        · simp only [hmem, if_true] at hk
          exact ⟨hk, fun hne => hk (hne ▸ hmem)⟩
        · simp only [hmem, if_false, List.mem_append, List.mem_singleton, not_or] at hk
          exact ⟨hk.1, fun hne => hk.2 hne.symm⟩
      refine Or.inr ⟨hk'.1, r0, hid, hv, ht, hd, ?_⟩
      rw [withChildren_cons, withChildren_of_ne k row r0 hk'.2, hr]

theorem scanLoop_ok (rows : List JoinRow) (m : RecordMap) :
    scanLoop (rows.map Except.ok) m = Except.ok (rows.foldl aggregateRow m) := by
  induction rows generalizing m with
  | nil => rfl
  | cons row rows ih => simpa [scanLoop] using ih (aggregateRow m row)

theorem mapToSlice_eq (iter : RecordMap → RecordMap) (m : RecordMap) :
    mapToSlice iter m = (iter m).map Prod.snd := by
  unfold mapToSlice
  have h : ∀ (l : RecordMap) (acc : List Record),
      l.foldl (fun records rec => records ++ [rec.2]) acc = acc ++ l.map Prod.snd := by
    intro l
    induction l with
    | nil => simp
    | cons e l ih => intro acc; simp [ih]
  simpa using h (iter m) []

theorem aggregateRecords_ok (iter : RecordMap → RecordMap) (rows : List JoinRow) :
    aggregateRecords iter (rows.map Except.ok)
      = Except.ok ((iter (rows.foldl aggregateRow [])).map Prod.snd) := by
  simp [aggregateRecords, scanLoop_ok, mapToSlice_eq]

/-- Every entry of the final map is the Record of its key: the key is the
patient id and the sequences are the children of that patient in row order. -/
theorem foldl_entry (rows : List JoinRow) (k : String) (r : Record)
    (h : (k, r) ∈ rows.foldl aggregateRow []) :
    r.Patient.ID = k ∧ r.VisitRecords = visitsOf k rows
      ∧ r.TreatmentRecs = treatmentsOf k rows ∧ r.DiagRecords = diagnosticsOf k rows := by
  rcases foldl_mem rows [] k r h with ⟨r0, hr0, _⟩ | ⟨_, r0, hid, hv, ht, hd, hr⟩
  · simp at hr0
  · subst hr
    simp [withChildren, hid, hv, ht, hd]

theorem emitted_ids (iter : RecordMap → RecordMap) (hiter : ∀ m, (iter m).Perm m)
    (rows : List JoinRow) :
    ((iter (rows.foldl aggregateRow [])).map Prod.snd).map (fun rec => rec.Patient.ID)
      = (iter (rows.foldl aggregateRow [])).map Prod.fst := by
  rw [List.map_map]
  apply List.map_congr_left
  rintro ⟨k, r⟩ he
  exact (foldl_entry rows k r ((hiter _).mem_iff.mp he)).1

/-- C4: on a result set whose rows all decode, the aggregation returns
Records whose patient ids are pairwise distinct and are exactly the ids that
occur in the rows, so there are as many Records as distinct ids; this holds
for every order in which the map is ranged over. -/
theorem C4_one_record_per_patient (iter : RecordMap → RecordMap)
    (hiter : ∀ m, (iter m).Perm m) (rows : List JoinRow) :
    ∃ records, aggregateRecords iter (rows.map Except.ok) = Except.ok records
      ∧ (records.map (fun rec => rec.Patient.ID)).Nodup
      ∧ (∀ p, p ∈ records.map (fun rec => rec.Patient.ID) ↔ p ∈ rows.map (fun row => row.id))
      ∧ records.length = (rows.map (fun row => row.id)).dedup.length := by
  refine ⟨_, aggregateRecords_ok iter rows, ?_, ?_, ?_⟩
  · rw [emitted_ids iter hiter rows]
    exact (((hiter _).map Prod.fst).nodup_iff).mpr
      (foldl_keys_nodup rows [] (by simp))
  · intro p
    rw [emitted_ids iter hiter rows, ((hiter _).map Prod.fst).mem_iff, foldl_keys_mem]
    simp
  · have hnodup : ((iter (rows.foldl aggregateRow [])).map Prod.fst).Nodup :=
      (((hiter _).map Prod.fst).nodup_iff).mpr (foldl_keys_nodup rows [] (by simp))
    have hperm : ((iter (rows.foldl aggregateRow [])).map Prod.fst).Perm
        (rows.map (fun row => row.id)).dedup := by
      rw [List.perm_ext_iff_of_nodup hnodup (List.nodup_dedup _)]
      intro p
      rw [((hiter _).map Prod.fst).mem_iff, foldl_keys_mem, List.mem_dedup]
      simp
    simpa using hperm.length_eq

/-- C4 at three rows of two patients, the map ranged over in reverse order. -/
theorem C4_one_record_per_patient_witness :
    ∃ records, aggregateRecords List.reverse (sampleRows.map Except.ok) = Except.ok records
      ∧ (records.map (fun rec => rec.Patient.ID)).Nodup
      ∧ (∀ p, p ∈ records.map (fun rec => rec.Patient.ID)
          ↔ p ∈ sampleRows.map (fun row => row.id))
      ∧ records.length = (sampleRows.map (fun row => row.id)).dedup.length :=
  C4_one_record_per_patient List.reverse (fun m => List.reverse_perm m) sampleRows

/-- C5: on a result set whose rows all decode, every patient id of the rows has
an emitted Record, and the visit sequence of every emitted Record is, in row
order, the visit columns (visit date, reason, doctor name, visit hospital) of
exactly the rows of its patient whose visit date is not empty; likewise the
treatment sequence with the treatment columns and the diagnostic sequence with
the diagnostic columns.  No child entry of an emitted Record has an empty
date. -/
theorem C5_child_sequences_in_row_order (iter : RecordMap → RecordMap)
    (hiter : ∀ m, (iter m).Perm m) (rows : List JoinRow) :
    ∃ records, aggregateRecords iter (rows.map Except.ok) = Except.ok records
      ∧ (∀ p ∈ rows.map (fun row => row.id), ∃ rec ∈ records, rec.Patient.ID = p)
      ∧ (∀ rec ∈ records,
          rec.VisitRecords
            = (rows.filter (fun row => decide (row.id = rec.Patient.ID ∧ row.vDate ≠ ""))).map
                (fun row =>
                  VisitRecord.mk row.vDate row.vReason row.vDoctorName row.visitHospital)
          ∧ rec.TreatmentRecs
            = (rows.filter (fun row => decide (row.id = rec.Patient.ID ∧ row.tDate ≠ ""))).map
                (fun row =>
                  TreatmentRecord.mk row.tDate row.tTreatment row.tOutcome
                    row.treatmentHospital)
          ∧ rec.DiagRecords
            = (rows.filter (fun row => decide (row.id = rec.Patient.ID ∧ row.dDate ≠ ""))).map
                (fun row =>
                  DiagnosticRecord.mk row.dDate row.dDiagnosis row.dSpecialist
                    row.diagnosticHospital))
      ∧ (∀ rec ∈ records,
          (∀ v ∈ rec.VisitRecords, v.Date ≠ "")
          ∧ (∀ t ∈ rec.TreatmentRecs, t.Date ≠ "")
          ∧ (∀ d ∈ rec.DiagRecords, d.Date ≠ "")) := by
  have hseq : ∀ rec ∈ (iter (rows.foldl aggregateRow [])).map Prod.snd,
      rec.VisitRecords = visitsOf rec.Patient.ID rows
      ∧ rec.TreatmentRecs = treatmentsOf rec.Patient.ID rows
      ∧ rec.DiagRecords = diagnosticsOf rec.Patient.ID rows := by
    intro rec hrec
    rw [List.mem_map] at hrec
    obtain ⟨⟨k, r⟩, he, hr⟩ := hrec
    simp only at hr
    subst hr
    obtain ⟨hid, hv, ht, hd⟩ := foldl_entry rows k r ((hiter _).mem_iff.mp he)
    rw [hid]
    exact ⟨hv, ht, hd⟩
  refine ⟨_, aggregateRecords_ok iter rows, ?_, hseq, ?_⟩
  · intro p hp
    have hkey : p ∈ (rows.foldl aggregateRow []).map Prod.fst :=
      (foldl_keys_mem rows [] p).mpr (Or.inr hp)
    rw [List.mem_map] at hkey
    obtain ⟨⟨k, r⟩, he, hk⟩ := hkey
    simp only at hk
    subst hk
    refine ⟨r, ?_, (foldl_entry rows k r he).1⟩
    rw [List.mem_map]
    exact ⟨(k, r), (hiter _).mem_iff.mpr he, rfl⟩
  · intro rec hrec
    obtain ⟨hv, ht, hd⟩ := hseq rec hrec
    rw [hv, ht, hd]
    refine ⟨?_, ?_, ?_⟩
    · intro v hmem
      simp only [visitsOf, List.mem_map, List.mem_filter, decide_eq_true_eq] at hmem
      obtain ⟨row, ⟨_, _, hne⟩, rfl⟩ := hmem
      exact hne
    · intro t hmem
      simp only [treatmentsOf, List.mem_map, List.mem_filter, decide_eq_true_eq] at hmem
      obtain ⟨row, ⟨_, _, hne⟩, rfl⟩ := hmem
      exact hne
    · intro d hmem
      simp only [diagnosticsOf, List.mem_map, List.mem_filter, decide_eq_true_eq] at hmem
      obtain ⟨row, ⟨_, _, hne⟩, rfl⟩ := hmem
      exact hne

/-- C5 at three rows of two patients, the map ranged over in reverse order. -/
theorem C5_child_sequences_in_row_order_witness :
    ∃ records, aggregateRecords List.reverse (sampleRows.map Except.ok) = Except.ok records
      ∧ (∀ p ∈ sampleRows.map (fun row => row.id), ∃ rec ∈ records, rec.Patient.ID = p)
      ∧ (∀ rec ∈ records,
          rec.VisitRecords
            = (sampleRows.filter
                (fun row => decide (row.id = rec.Patient.ID ∧ row.vDate ≠ ""))).map
                (fun row =>
                  VisitRecord.mk row.vDate row.vReason row.vDoctorName row.visitHospital)
          ∧ rec.TreatmentRecs
            = (sampleRows.filter
                (fun row => decide (row.id = rec.Patient.ID ∧ row.tDate ≠ ""))).map
                (fun row =>
                  TreatmentRecord.mk row.tDate row.tTreatment row.tOutcome
                    row.treatmentHospital)
          ∧ rec.DiagRecords
            = (sampleRows.filter
                (fun row => decide (row.id = rec.Patient.ID ∧ row.dDate ≠ ""))).map
                (fun row =>
                  DiagnosticRecord.mk row.dDate row.dDiagnosis row.dSpecialist
                    row.diagnosticHospital))
      ∧ (∀ rec ∈ records,
          (∀ v ∈ rec.VisitRecords, v.Date ≠ "")
          ∧ (∀ t ∈ rec.TreatmentRecs, t.Date ≠ "")
          ∧ (∀ d ∈ rec.DiagRecords, d.Date ≠ "")) :=
  C5_child_sequences_in_row_order List.reverse (fun m => List.reverse_perm m) sampleRows

end PatientRecords
